import Mathlib

/-!
# Verification of the tidevice core (`tidevice/_device.py`)

A shallow embedding of the control flow of `BaseDevice` from
`src/tidevice/_device.py`: device listing, lockdown sessions (pairing,
`StartSession`, the `InvalidHostID` re-pair), `StartService` with the
developer-image mount retry and the dial-only TLS services, the iOS 16
developer-mode AMFI side channel, and the XCUITest orchestrator
(configuration file placement, version-gated authorization selectors,
the once-guarded test-plan start, and result reporting).

Python exceptions are modelled as `Except` values; the mux daemon and the
device are modelled as environments supplying the replies the code reads;
side effects (mux requests, lockdown requests, file operations) are
recorded in explicit traces so that "exactly once" claims are statements
about traces.
-/

namespace TiDevice

/-- Exceptions raised by the code paths under study.  `muxError`,
`muxReplyError` and `muxServiceError` mirror the classes of the same
names from the `exceptions` module (`MuxReplyError` and `MuxServiceError`
subclass `MuxError`, as witnessed by the `except (MuxServiceError, MuxError)`
clause of `start_service` and the `err.reply_code` access in `handshake`).
`serviceError` mirrors `ServiceError`; `assertionError` a failed `assert`;
`keyError` a missing dictionary key; `typeError` indexing into `None`;
`structError` a short buffer handed to `struct.unpack`; `runtimeError`
the `RuntimeError` raises of `xcuitest`. -/
inductive Err where
  | muxError (msg : String)
  | muxReplyError (code : Nat)
  | muxServiceError (msg : String)
  | serviceError (msg : String)
  | assertionError
  | keyError (key : String)
  | typeError
  | structError
  | runtimeError (msg : String)
deriving Repr, DecidableEq

/-- The device records returned by `Usbmux.device_list`
(`BaseDevice.info` reads `.udid` and `.device_id`). -/
structure DeviceInfo where
  udid : String
  device_id : Nat
deriving Repr, DecidableEq

/-- `BaseDevice.info` (`_device.py:100-119`), as a function of the
constructor-time `udid` (`None` or a concrete string) and of the device
list the mux daemon reports.  The Python loop `for d in devices: if
d.udid == self._udid: self._info = d` keeps the *last* match, hence the
`getLast?` of the filter. -/
def info (udid : Option String) (devices : List DeviceInfo) :
    Except Err DeviceInfo :=
  match udid with
  | some u =>
    match (devices.filter (fun d => d.udid == u)).getLast? with
    | some d => .ok d
    | none => .error (.muxError ("Device: " ++ u ++ " not ready"))
  | none =>
    match devices with
    | [] => .error (.muxError "No device connected")
    | [d] => .ok d
    | _ :: _ :: _ => .error (.muxError "More then one device connected")

/-- The error `info` raises when no UDID was given and the mux daemon
reports no devices; the spec's error taxonomy calls this condition
`NoDevice` (§8, seed test 1), realized in the code as
`MuxError("No device connected")` (`_device.py:110`). -/
def NoDevice : Err := .muxError "No device connected"

/-- The pair record fields the control flow under study reads
(`HostID`, `SystemBUID`); the cryptographic fields
(certificates, keys, escrow bag) are carried by the record but never
branch the code paths of the claims, so they are elided here. -/
structure PairRecord where
  hostID : String
  systemBUID : String
deriving Repr, DecidableEq

/-- The fields of a `StartSession` reply that `create_session` reads:
`Error` (optional), `SessionID` and `EnableSessionSSL` (both indexed
directly, so a missing key is a `KeyError`). -/
structure StartSessionReply where
  error : Option String
  sessionID : Option String
  enableSessionSSL : Option Bool
deriving Repr, DecidableEq

/-- The environment of one lockdown conversation: the replies the mux
daemon and the device would give to the requests `create_session` (and a
re-pair inside it) can issue.  `newHostID` stands for the
`str(uuid.uuid4()).upper()` generated in `pair`. -/
structure LockdownWorld where
  queryTypeOk : Bool
  devicePublicKeyNonEmpty : Bool
  buid : String
  newHostID : String
  pairError : Option String
  pairHasEscrowBag : Bool
  reply1 : StartSessionReply
  reply2 : StartSessionReply
deriving Repr, DecidableEq

/-- The mutable state threaded through the calls: the in-memory
`self._pair_record` and the mux daemon's pair-record store for this UDID
(read by `ReadPairRecord`, emptied by `DeletePairRecord`, filled by
`SavePairRecord`). -/
structure DevState where
  pairRecord : Option PairRecord
  muxStore : Option PairRecord
deriving Repr, DecidableEq

/-- The side effects the claims count.  Only the requests the claims are
about are traced (mux pair-record traffic, lockdown `Pair` /
`StartSession` / `StartService`, the developer-image mount attempt and
the session TLS handshake); plain `Connect` tunnels and `GetValue`
round-trips that no claim mentions are represented by
`lockdownGetValue` or not traced. -/
inductive Ev where
  | muxReadPairRecord
  | muxDeletePairRecord
  | muxSavePairRecord
  | lockdownQueryType
  | lockdownGetValue
  | lockdownPair
  | lockdownStartSession
  | lockdownStartService
  | mountDeveloperImage
  | sslHandshake
deriving Repr, DecidableEq, BEq

/-- A TLS-upgraded lockdown session, `Session(s, session_id)`. -/
structure Session where
  sessionID : String
deriving Repr, DecidableEq

/-- `BaseDevice._read_pair_record` (`_device.py:142-173`): a
`ReadPairRecord` mux request.  When the daemon has no record for the
UDID it replies with `Number = 6`; `UsbmuxReplyCode.BadDevice = 6` is
defined in `_proto.py` (not under src), the value is the spec's
"`BadDevice` (code 6)" (§4.C). -/
def read_pair_record (st : DevState) :
    Except Err PairRecord × DevState × List Ev :=
  match st.muxStore with
  | some r => (.ok r, st, [.muxReadPairRecord])
  | none => (.error (.muxReplyError 6), st, [.muxReadPairRecord])

/-- `BaseDevice.delete_pair_record` (`_device.py:175-181`): a
`DeletePairRecord` mux request; the reply is ignored. -/
def delete_pair_record (st : DevState) : DevState × List Ev :=
  ({ st with muxStore := none }, [.muxDeletePairRecord])

/-- `BaseDevice.pair` (`_device.py:183-237`): read `DevicePublicKey`
(empty → `MuxError`), read the BUID and `WiFiAddress`, generate
certificates (pure host-side work, not traced), send the lockdown
`Pair` request (a reply with `Error` → `MuxError`; a reply without
`EscrowBag` fails the assert), then persist the new record with a
`SavePairRecord` mux request. -/
def pair (w : LockdownWorld) (st : DevState) :
    Except Err PairRecord × DevState × List Ev :=
  if w.devicePublicKeyNonEmpty then
    match w.pairError with
    | some e =>
      (.error (.muxError ("pair: " ++ e)), st,
        [.lockdownGetValue, .lockdownGetValue, .lockdownPair])
    | none =>
      if w.pairHasEscrowBag then
        let r : PairRecord := { hostID := w.newHostID, systemBUID := w.buid }
        (.ok r, { st with muxStore := some r },
          [.lockdownGetValue, .lockdownGetValue, .lockdownPair,
            .muxSavePairRecord])
      else
        (.error .assertionError, st,
          [.lockdownGetValue, .lockdownGetValue, .lockdownPair])
  else
    (.error (.muxError "Unable to retrieve DevicePublicKey"), st,
      [.lockdownGetValue])

/-- `BaseDevice.handshake` (`_device.py:239-247`): try
`_read_pair_record`; a `MuxReplyError` with `reply_code = BadDevice`
triggers `pair()`; any other `MuxReplyError` is caught by the `except`
clause and — its body being a plain `if` — silently swallowed. -/
def handshake (w : LockdownWorld) (st : DevState) :
    Except Err Unit × DevState × List Ev :=
  match read_pair_record st with
  | (.ok r, st1, t1) => (.ok (), { st1 with pairRecord := some r }, t1)
  | (.error (.muxReplyError c), st1, t1) =>
    if c = 6 then
      match pair w st1 with
      | (.ok r, st2, t2) =>
        (.ok (), { st2 with pairRecord := some r }, t1 ++ t2)
      | (.error e, st2, t2) => (.error e, st2, t1 ++ t2)
    else (.ok (), st1, t1)
  | (.error e, st1, t1) => (.error e, st1, t1)

/-- The `pair_record` property (`_device.py:132-136`): call `handshake`
when `self._pair_record` is unset, then return it.  Callers immediately
subscript the result, so a record that is still `None` after `handshake`
is the `TypeError` of `None['HostID']`. -/
def pair_record_get (w : LockdownWorld) (st : DevState) :
    Except Err PairRecord × DevState × List Ev :=
  match st.pairRecord with
  | some r => (.ok r, st, [])
  | none =>
    match handshake w st with
    | (.ok _, st1, t) =>
      match st1.pairRecord with
      | some r => (.ok r, st1, t)
      | none => (.error .typeError, st1, t)
    | (.error e, st1, t) => (.error e, st1, t)

/-- The tail of `create_session` (`_device.py:330-335`): read
`data['SessionID']`, then `data['EnableSessionSSL']` (direct indexing:
a missing key raises), and upgrade the socket to TLS when the latter is
true. -/
def finish_session (reply : StartSessionReply) (st : DevState)
    (t : List Ev) : Except Err Session × DevState × List Ev :=
  match reply.sessionID with
  | none => (.error (.keyError "SessionID"), st, t)
  | some sid =>
    match reply.enableSessionSSL with
    | none => (.error (.keyError "EnableSessionSSL"), st, t)
    | some ssl =>
      if ssl then (.ok { sessionID := sid }, st, t ++ [.sslHandshake])
      else (.ok { sessionID := sid }, st, t)

/-- `BaseDevice.create_session` (`_device.py:294-335`): `QueryType`
(asserting the lockdown type), a `GetValue ProductVersion` round-trip,
then `StartSession` with the pair record's `HostID`/`SystemBUID`.  On
`Error = InvalidHostID`: clear `self._pair_record`, send
`DeletePairRecord`, run `handshake` (which now re-pairs), and send
`StartSession` once more; any other error raises
`MuxError("StartSession", ...)`. -/
def create_session (w : LockdownWorld) (st : DevState) :
    Except Err Session × DevState × List Ev :=
  if w.queryTypeOk then
    let t0 : List Ev := [.lockdownQueryType, .lockdownGetValue]
    match pair_record_get w st with
    | (.error e, st1, t) => (.error e, st1, t0 ++ t)
    | (.ok _, st1, t) =>
      let t1 := t0 ++ t ++ [.lockdownStartSession]
      match w.reply1.error with
      | some e =>
        if e = "InvalidHostID" then
          let st2 := { st1 with pairRecord := none }
          let (st3, td) := delete_pair_record st2
          match handshake w st3 with
          | (.error e2, st4, t2) => (.error e2, st4, t1 ++ td ++ t2)
          | (.ok _, st4, t2) =>
            match pair_record_get w st4 with
            | (.error e3, st5, t3) =>
              (.error e3, st5, t1 ++ td ++ t2 ++ t3)
            | (.ok _, st5, t3) =>
              finish_session w.reply2 st5
                (t1 ++ td ++ t2 ++ t3 ++ [.lockdownStartSession])
        else (.error (.muxError ("StartSession: " ++ e)), st1, t1)
      | none => finish_session w.reply1 st1 t1
  else (.error .assertionError, st, [.lockdownQueryType])

/-- The fields of a `StartService` reply `_unsafe_start_service` reads:
`Error` (optional), `Service` (checked by the assert against the
requested name), `Port`, and `EnableServiceSSL`
(`data.get('EnableServiceSSL', False)` — default `False`). -/
structure StartServiceReply where
  error : Option String
  service : Option String
  port : Nat
  enableServiceSSL : Bool
deriving Repr, DecidableEq

/-- The observable TLS state of a service tunnel:
whether a TLS handshake was performed on it, and whether the TLS layer
is still active when the connection is handed to the caller. -/
structure InnerConn where
  port : Nat
  sslHandshakeDone : Bool
  sslActive : Bool
  name : String
deriving Repr, DecidableEq

/-- The four DTX services that only dial TLS
(`_unsafe_start_service`, `_device.py:533-536`). -/
def dialOnlyServices : List String :=
  ["com.apple.instruments.remoteserver",
   "com.apple.accessibility.axAuditDaemon.remoteserver",
   "com.apple.testmanagerd.lockdown",
   "com.apple.debugserver"]

/-- `BaseDevice.create_inner_connection` (`_device.py:276-292`): open a
tunnel to the port; when `_ssl` is set perform `switch_to_ssl` and, when
additionally `ssl_dial_only`, immediately `ssl_unwrap` back to
plaintext. -/
def create_inner_connection (port : Nat) (ssl : Bool)
    (ssl_dial_only : Bool) : InnerConn :=
  { port := port
    sslHandshakeDone := ssl
    sslActive := ssl && !ssl_dial_only
    name := "" }

/-- `BaseDevice._unsafe_start_service` (`_device.py:506-540`): inside a
fresh session send `StartService`; a reply with `Error` raises
`MuxServiceError`; otherwise assert the echoed `Service` name, compute
`ssl_dial_only` by membership in `dialOnlyServices`, and open the inner
connection to the returned port. -/
def unsafe_start_service (w : LockdownWorld) (st : DevState)
    (name : String) (reply : StartServiceReply) :
    Except Err InnerConn × DevState × List Ev :=
  match create_session w st with
  | (.error e, st1, t) => (.error e, st1, t)
  | (.ok _, st1, t) =>
    let t1 := t ++ [.lockdownStartService]
    match reply.error with
    | some e => (.error (.muxServiceError e), st1, t1)
    | none =>
      if reply.service = some name then
        let conn := create_inner_connection reply.port
          reply.enableServiceSSL (dialOnlyServices.contains name)
        (.ok { conn with name := name }, st1, t1)
      else (.error .assertionError, st1, t1)

/-- Whether an exception is caught by
`except (MuxServiceError, MuxError)` in `start_service`:
`MuxServiceError` is listed, `MuxError` is listed, and `MuxReplyError`
subclasses `MuxError` (the `exceptions` module; see the doc of `Err`). -/
def caughtByStartService : Err → Bool
  | .muxError _ => true
  | .muxReplyError _ => true
  | .muxServiceError _ => true
  | _ => false

/-- `BaseDevice.start_service` (`_device.py:497-504`): one
`_unsafe_start_service` attempt; on `MuxServiceError`/`MuxError` run
`mount_developer_image` (its outcome is the parameter `mountResult`; an
exception from it propagates), sleep, and retry
`_unsafe_start_service` once, propagating its outcome. -/
def start_service (w1 : LockdownWorld) (r1 : StartServiceReply)
    (mountResult : Except Err Unit)
    (w2 : LockdownWorld) (r2 : StartServiceReply)
    (st : DevState) (name : String) :
    Except Err InnerConn × DevState × List Ev :=
  match unsafe_start_service w1 st name r1 with
  | (.ok c, st1, t1) => (.ok c, st1, t1)
  | (.error e, st1, t1) =>
    if caughtByStartService e then
      match mountResult with
      | .error em => (.error em, st1, t1 ++ [.mountDeveloperImage])
      | .ok _ =>
        match unsafe_start_service w2 st1 name r2 with
        | (res2, st2, t2) =>
          (res2, st2, t1 ++ [.mountDeveloperImage] ++ t2)
    else (.error e, st1, t1)

/-- An environment in which a session is created without incident: the
lockdown type checks out, the first `StartSession` reply carries a
`SessionID` and `EnableSessionSSL = false`, and no re-pair is needed. -/
def happyWorld (sid : String) : LockdownWorld :=
  { queryTypeOk := true
    devicePublicKeyNonEmpty := true
    buid := ""
    newHostID := ""
    pairError := none
    pairHasEscrowBag := true
    reply1 :=
      { error := none, sessionID := some sid, enableSessionSSL := some false }
    reply2 := { error := none, sessionID := none, enableSessionSSL := none } }

/-- The protocol version the orchestrator speaks
(`XCODE_VERSION = 29`, `_device.py:1009`). -/
def XCODE_VERSION : Nat := 29

/-- The authorization call `xcuitest` makes on the control connection x1
right after launching the runner (`_device.py:1134-1149`): the selector
and the auxiliary arguments, chosen by the device's major iOS version. -/
def xcuitest_authorize (major : Nat) (pid : Nat) : String × List Nat :=
  if major ≥ 12 then
    ("_IDE_authorizeTestSessionWithProcessID:", [pid])
  else if major ≤ 9 then
    ("_IDE_initiateControlSessionForTestProcessID:", [pid])
  else
    ("_IDE_initiateControlSessionForTestProcessID:protocolVersion:",
      [pid, XCODE_VERSION])

/-- `struct.pack(">I", n)`: four big-endian bytes.  (`struct.pack`
raises for `n ≥ 2^32`; the only length framed here is that of a tiny
plist body.) -/
def pack_be32 (n : Nat) : List Nat :=
  [n / 2 ^ 24 % 256, n / 2 ^ 16 % 256, n / 2 ^ 8 % 256, n % 256]

/-- `struct.unpack(">I", rawdata[:4])` (`_device.py:494`): slice the
first (at most) four bytes and read them big-endian; a slice shorter
than four bytes is a `struct.error`. -/
def unpack_be32_prefix (raw : List Nat) : Except Err Nat :=
  match raw.take 4 with
  | [a, b, c, d] => .ok (((a * 256 + b) * 256 + c) * 256 + d)
  | _ => .error .structError

/-- Modelled from the spec: `LockdownService.AmfiLockdown`, the service
name `_send_action_to_amfi_lockdown` opens, is a constant of
`_proto.py`, which is not under src; spec §4.G names the service
`com.apple.amfi.lockdown`. -/
def AmfiLockdown : String := "com.apple.amfi.lockdown"

/-- One observed exchange of `_send_action_to_amfi_lockdown`: the
service opened, the exact bytes sent on it, and the decoded response
code. -/
structure AmfiExchange where
  serviceName : String
  sentBytes : List Nat
  respCode : Except Err Nat
deriving Repr

/-- `BaseDevice._send_action_to_amfi_lockdown` (`_device.py:482-495`):
start the AMFI service, send `struct.pack(">I", len(body)) + body` where
`body = plistlib2.dumps({"action": action})`, then read the reply and
decode its first four bytes big-endian.  The plist codec
(`plistlib2.dumps`) lives outside src, so the body encoder is the
parameter `dumps` (applied to the single `action` entry of the
dictionary). -/
def send_action_to_amfi_lockdown (dumps : Nat → List Nat) (action : Nat)
    (rawReply : List Nat) : AmfiExchange :=
  let body := dumps action
  { serviceName := AmfiLockdown
    sentBytes := pack_be32 body.length ++ body
    respCode := unpack_be32_prefix rawReply }

/-- The tail of `enable_ios16_developer_mode` (`_device.py:476-480`):
send `action = 0`; a `0xD9` response raises the "enable Developer Mode
in Settings" `ServiceError`, anything else the generic failure. -/
def amfi_action0_tail (dumps : Nat → List Nat) (rawReply0 : List Nat)
    (pre : List AmfiExchange) : Except Err Bool × List AmfiExchange :=
  let ex0 := send_action_to_amfi_lockdown dumps 0 rawReply0
  match ex0.respCode with
  | .error e => (.error e, pre ++ [ex0])
  | .ok code =>
    if code = 0xd9 then
      (.error (.serviceError
        "Developer Mode is not opened, to enable Developer Mode goto Settings -> Privacy & Security -> Developer Mode"),
        pre ++ [ex0])
    else
      (.error (.serviceError "Failed to enable \"Developer Mode\""),
        pre ++ [ex0])

/-- `BaseDevice.enable_ios16_developer_mode` (`_device.py:463-480`):
return `True` when `DeveloperModeStatus` already reports developer mode
(`isDeveloper`); otherwise, when `reboot_ok`, send `action = 1` and
raise the "device is rebooting" `ServiceError` on response `0xE6`; then
send `action = 0` and report per `amfi_action0_tail`.  The second
component collects the AMFI exchanges performed. -/
def enable_ios16_developer_mode (dumps : Nat → List Nat)
    (isDeveloper reboot_ok : Bool) (rawReply1 rawReply0 : List Nat) :
    Except Err Bool × List AmfiExchange :=
  if isDeveloper then (.ok true, [])
  else if reboot_ok then
    let ex1 := send_action_to_amfi_lockdown dumps 1 rawReply1
    match ex1.respCode with
    | .error e => (.error e, [ex1])
    | .ok code1 =>
      if code1 = 0xe6 then
        (.error (.serviceError
          "Device is rebooting in order to enable \"Developer Mode\""),
          [ex1])
      else amfi_action0_tail dumps rawReply0 [ex1]
  else amfi_action0_tail dumps rawReply0 []

/-- Python `s.endswith(suffix)`, computed on the character lists (the
byte-position arithmetic of core `String.endsWith` does not reduce in
the kernel, so witnesses could not evaluate it). -/
def str_endswith (s suffix : String) : Bool :=
  suffix.data.isSuffixOf s.data

/-- Python `s.upper()` for the ASCII strings at hand (a UUID's hex
digits and dashes), computed on the character lists. -/
def str_toUpper (s : String) : String := ⟨s.data.map Char.toUpper⟩

/-- The app-info fields the XCUITest launch path reads from
`installation.lookup(bundle_id)`: `CFBundleExecutable`, `Path` and
`Container`. -/
structure AppInfo where
  cfBundleExecutable : String
  path : String
  container : String
deriving Repr, DecidableEq

/-- The semantic fields `_gen_xctest_configuration` puts into the
archived `XCTestConfiguration` (`_device.py:826-837`). -/
structure XCTestConfiguration where
  testBundleURL : String
  sessionIdentifier : String
  targetApplicationBundleID : Option String
  targetApplicationArguments : List String
  targetApplicationEnvironment : List (String × String)
  testsToRun : List String
  testsMustRunOnMainThread : Bool
  reportResultsToIDE : Bool
  reportActivities : Bool
  automationFrameworkPath : String
deriving Repr, DecidableEq

/-- `BaseDevice._gen_xctest_configuration` (`_device.py:813-837`):
assert that `CFBundleExecutable` ends in `-Runner`, strip that suffix
(`exec_name[:-len("-Runner")]`, seven characters) to get the target
name, and build the configuration around the session identifier. -/
def gen_xctest_configuration (app : AppInfo) (session_identifier : String)
    (target_app_bundle_id : Option String)
    (target_app_env : List (String × String))
    (target_app_args : List String) (tests_to_run : List String) :
    Except Err XCTestConfiguration :=
  if str_endswith app.cfBundleExecutable "-Runner" then
    let target_name := app.cfBundleExecutable.dropRight 7
    .ok { testBundleURL :=
            "file://" ++ app.path ++ "/PlugIns/" ++ target_name ++ ".xctest"
          sessionIdentifier := session_identifier
          targetApplicationBundleID := target_app_bundle_id
          targetApplicationArguments := target_app_args
          targetApplicationEnvironment := target_app_env
          testsToRun := tests_to_run
          testsMustRunOnMainThread := true
          reportResultsToIDE := true
          reportActivities := true
          automationFrameworkPath :=
            "/Developer/Library/PrivateFrameworks/XCTAutomationSupport.framework" }
  else .error .assertionError

/-- The device-visible operations of `_launch_wda_app`, in program
order: AFC file removals and the configuration write in the runner's
container, then the instruments calls. -/
inductive LOp where
  | removeFile (path : String)
  | pushContent (path : String)
  | callProcessIdentifier (bundle : String)
  | launchProcess (bundle : String)
  | startObservingPid (pid : Nat)
deriving Repr, DecidableEq, BEq

/-- `BaseDevice._launch_wda_app` (`_device.py:839-951`), reduced to its
action sequence: assert the `-Runner` suffix of `CFBundleExecutable`;
remove every file of the container's `/tmp` listing (`tmpFiles`) that
ends in `.xctestconfiguration`; push the archived configuration to
`/tmp/<TargetName>-<UPPER(UUID)>.xctestconfiguration`
(`str(session_identifier).upper()`); then
`processIdentifierForBundleIdentifier:`, the
`launchSuspendedProcessWithDevicePath:...` launch (`launchReplyPid` is
the pid it returns; `none` models a non-int reply, raised as
`MuxError("Launch failed")`), and `startObservingPid:`. -/
def launch_wda_app (app : AppInfo) (bundle_id : String)
    (session_identifier : String) (tmpFiles : List String)
    (launchReplyPid : Option Nat) : Except Err Nat × List LOp :=
  if str_endswith app.cfBundleExecutable "-Runner" then
    let target_name := app.cfBundleExecutable.dropRight 7
    let xctest_path := "/tmp/" ++ target_name ++ "-"
      ++ str_toUpper session_identifier ++ ".xctestconfiguration"
    let removes := (tmpFiles.filter
        (fun f => str_endswith f ".xctestconfiguration")).map
      (fun f => LOp.removeFile ("/tmp/" ++ f))
    let ops := removes ++ [LOp.pushContent xctest_path,
      LOp.callProcessIdentifier bundle_id, LOp.launchProcess bundle_id]
    match launchReplyPid with
    | some pid => (.ok pid, ops ++ [LOp.startObservingPid pid])
    | none => (.error (.muxError "Launch failed"), ops)
  else (.error .assertionError, [])

/-- The C6 slice of `xcuitest` (`_device.py:1010`, `1084`, `1108`): a
single `uuid.uuid4()` (`freshUUID`) is generated and handed both to
`_gen_xctest_configuration` and to `_launch_wda_app`. -/
def xcuitest_prepare (freshUUID : String) (app : AppInfo)
    (bundle_id : String) (target_bundle_id : Option String)
    (target_app_env : List (String × String))
    (target_app_args : List String) (tests_to_run : List String)
    (tmpFiles : List String) (launchReplyPid : Option Nat) :
    Except Err XCTestConfiguration × (Except Err Nat × List LOp) :=
  (gen_xctest_configuration app freshUUID target_bundle_id target_app_env
      target_app_args tests_to_run,
   launch_wda_app app bundle_id freshUUID tmpFiles launchReplyPid)

/-- `XCTestResult`: the tuple the device emits in
`_XCT_testSuite:didFinishAt:runCount:withFailures:unexpected:testDuration:totalDuration:`.
Modelled from the spec: the class lives in `_types.py` (not under src);
spec §3 lists its fields.  Only `failure_count` is ever inspected by
`_device.py`; the two durations are floating-point on the wire and are
carried here as opaque integers, no claim reads them. -/
structure XCTestResult where
  testSuiteName : String
  finishedAt : String
  runCount : Nat
  failure_count : Nat
  unexpectedFailureCount : Nat
  testDuration : Int
  totalDuration : Int
deriving Repr, DecidableEq

/-- The incoming testmanagerd traffic `xcuitest` reacts to, across its
two DTX connections: the `FINISHED` events of x1 and x2 and the
selector notifications x2 registered callbacks for.  `suiteFinished`
carries the decoded `XCTestResult` (or `none` for a malformed message,
which `_record_test_result_callback` logs and ignores);
`runnerReadyWithCaps` carries the channel and message id the
configuration reply echoes. -/
inductive XEvent where
  | finishedX1
  | finishedX2
  | bundleReady
  | logDebugMessage (msg : String)
  | suiteFinished (r : Option XCTestResult)
  | runnerReadyWithCaps (chan : Int) (mid : Nat)
deriving Repr, DecidableEq, BEq

/-- The orchestrator state the callbacks of `xcuitest` mutate: the
`quit_event`, the `_start_flag`, the number of
`_IDE_startExecutingTestPlanWithProtocolVersion:` sends, the number of
configuration replies, and the `test_results` list. -/
structure XState where
  quitEvent : Bool
  startFlag : Bool
  startPlanSends : Nat
  configReplies : Nat
  test_results : List XCTestResult
deriving Repr, DecidableEq

/-- The state at `xcuitest` entry (`_device.py:1013`, `1040`, `1058`). -/
def initXState : XState :=
  { quitEvent := false, startFlag := false, startPlanSends := 0,
    configReplies := 0, test_results := [] }

/-- Whether `needle` occurs (contiguously) in `hay`. -/
def hasSubstr (hay needle : List Char) : Bool :=
  match hay with
  | [] => needle.isEmpty
  | _ :: t => needle.isPrefixOf hay || hasSubstr t needle

/-- Python's `needle in hay` on strings. -/
def strContains (hay needle : String) : Bool :=
  hasSubstr hay.data needle.data

/-- `_start_executing` (`_device.py:1042-1049`): return immediately when
`_start_flag` is already set; otherwise set it and send
`_IDE_startExecutingTestPlanWithProtocolVersion:` on x2. -/
def start_executing (s : XState) : XState :=
  if s.startFlag then s
  else { s with startFlag := true, startPlanSends := s.startPlanSends + 1 }

/-- One callback dispatch of `xcuitest` (`_device.py:1029`, `1037`,
`1051-1091`): `FINISHED` on either connection sets the quit event;
`_XCT_testBundleReadyWithProtocolVersion:minimumVersion:` calls
`_start_executing`; `_XCT_logDebugMessage:` calls it when the message
contains `"Received test runner ready reply"`;
`_XCT_testSuite:didFinishAt:...` appends a decodable result to
`test_results`; `_XCT_testRunnerReadyWithCapabilities:` replies with the
archived configuration. -/
def xstep (s : XState) (e : XEvent) : XState :=
  match e with
  | .finishedX1 => { s with quitEvent := true }
  | .finishedX2 => { s with quitEvent := true }
  | .bundleReady => start_executing s
  | .logDebugMessage msg =>
    if strContains msg "Received test runner ready reply" then
      start_executing s
    else s
  | .suiteFinished (some r) =>
    { s with test_results := s.test_results ++ [r] }
  | .suiteFinished none => s
  | .runnerReadyWithCaps _ _ => { s with configReplies := s.configReplies + 1 }

/-- The callback-visible state after a sequence of incoming events. -/
def xrun (es : List XEvent) : XState := es.foldl xstep initXState

/-- The blocking tail of `xcuitest` (`_device.py:1154-1166`): the
orchestrator spins on `quit_event` — it does not return while the event
is unset (`none`); once the event is set it raises the test-failure
error carrying `test_results` when any recorded result has
`failure_count > 0` (the `RuntimeError` message renders exactly that
list), and returns normally otherwise. -/
def xcuitest_wait_and_report (es : List XEvent) :
    Option (Except (List XCTestResult) Unit) :=
  let s := xrun es
  if s.quitEvent then
    some (if s.test_results.any (fun r => r.failure_count > 0) then
      .error s.test_results
    else .ok ())
  else none

end TiDevice

/-- **C4.** Constructing a device handle without a UDID and querying it
while the mux daemon reports zero connected devices raises the no-device
error (the spec's `NoDevice`, raised as `MuxError("No device connected")`). -/
theorem C4_info_no_device :
    TiDevice.info none [] = .error TiDevice.NoDevice := by
  rfl

/-- **C7.** The authorization selector sent on x1 after launch is chosen by
the major iOS version: `_IDE_authorizeTestSessionWithProcessID:` with the
pid for major ≥ 12, `_IDE_initiateControlSessionForTestProcessID:` with the
pid for major ≤ 9, and
`_IDE_initiateControlSessionForTestProcessID:protocolVersion:` with the pid
and protocol version 29 for every other major version. -/
theorem C7_authorize_selector_by_version (major pid : Nat) :
    (major ≥ 12 →
      TiDevice.xcuitest_authorize major pid =
        ("_IDE_authorizeTestSessionWithProcessID:", [pid])) ∧
    (major ≤ 9 →
      TiDevice.xcuitest_authorize major pid =
        ("_IDE_initiateControlSessionForTestProcessID:", [pid])) ∧
    (¬ major ≥ 12 → ¬ major ≤ 9 →
      TiDevice.xcuitest_authorize major pid =
        ("_IDE_initiateControlSessionForTestProcessID:protocolVersion:",
          [pid, 29])) := by
  refine ⟨fun h => ?_, fun h => ?_, fun h1 h2 => ?_⟩
  · simp [TiDevice.xcuitest_authorize, h]
  · have h' : ¬ major ≥ 12 := by omega
    simp [TiDevice.xcuitest_authorize, h, h']
  · simp [TiDevice.xcuitest_authorize, h1, h2, TiDevice.XCODE_VERSION]

/-- Witness for C7: the three version regimes at majors 13, 9 and 10. -/
theorem C7_authorize_selector_by_version_witness :
    TiDevice.xcuitest_authorize 13 55 =
        ("_IDE_authorizeTestSessionWithProcessID:", [55]) ∧
    TiDevice.xcuitest_authorize 9 55 =
        ("_IDE_initiateControlSessionForTestProcessID:", [55]) ∧
    TiDevice.xcuitest_authorize 10 55 =
        ("_IDE_initiateControlSessionForTestProcessID:protocolVersion:",
          [55, 29]) :=
  ⟨(C7_authorize_selector_by_version 13 55).1 (by decide),
   (C7_authorize_selector_by_version 9 55).2.1 (by decide),
   (C7_authorize_selector_by_version 10 55).2.2 (by decide) (by decide)⟩

/-- **C1.** When the first `StartSession` reply carries
`Error = InvalidHostID`, `create_session` deletes the local pair record
(one `DeletePairRecord`), re-pairs (one lockdown `Pair`, during which
exactly one `SavePairRecord` reaches the mux daemon), sends
`StartSession` exactly one more time (two in total), and — the second
reply succeeding — returns the session without raising. -/
theorem C1_invalid_hostid_repairs_once (r0 : TiDevice.PairRecord)
    (sid buid hid : String) (ssl : Bool) :
    let w : TiDevice.LockdownWorld :=
      { queryTypeOk := true
        devicePublicKeyNonEmpty := true
        buid := buid
        newHostID := hid
        pairError := none
        pairHasEscrowBag := true
        reply1 :=
          { error := some "InvalidHostID", sessionID := none,
            enableSessionSSL := none }
        reply2 :=
          { error := none, sessionID := some sid,
            enableSessionSSL := some ssl } }
    let st : TiDevice.DevState :=
      { pairRecord := some r0, muxStore := some r0 }
    let out := TiDevice.create_session w st
    out.1 = .ok { sessionID := sid } ∧
    out.2.2.count .lockdownStartSession = 2 ∧
    out.2.2.count .muxSavePairRecord = 1 ∧
    out.2.2.count .muxDeletePairRecord = 1 ∧
    out.2.2.count .lockdownPair = 1 := by
  cases ssl <;> exact ⟨rfl, rfl, rfl, rfl, rfl⟩

/-- **C3.** When the first `StartService` attempt fails with
`Error = InvalidService`, `start_service` attempts the developer-image
mount and retries `StartService` exactly once (two `StartService`
requests, one mount attempt in the trace); the failure of the second
attempt propagates to the caller as `MuxServiceError`. -/
theorem C3_invalid_service_mounts_and_retries_once
    (r0 : TiDevice.PairRecord) (sid1 sid2 e2 name : String) (p2 : Nat) :
    let st : TiDevice.DevState :=
      { pairRecord := some r0, muxStore := some r0 }
    let r1 : TiDevice.StartServiceReply :=
      { error := some "InvalidService", service := some name, port := 0,
        enableServiceSSL := false }
    let r2 : TiDevice.StartServiceReply :=
      { error := some e2, service := some name, port := p2,
        enableServiceSSL := false }
    let out := TiDevice.start_service (TiDevice.happyWorld sid1) r1
      (.ok ()) (TiDevice.happyWorld sid2) r2 st name
    out.1 = .error (.muxServiceError e2) ∧
    out.2.2.count .lockdownStartService = 2 ∧
    out.2.2.count .mountDeveloperImage = 1 := by
  exact ⟨rfl, rfl, rfl⟩

/-- **C8.** On a `StartService` reply with `EnableServiceSSL = true` the
client performs the TLS handshake on the new tunnel and keeps the TLS
layer active if and only if the service is not one of the four dial-only
DTX services; for exactly those four the layer is unwrapped back to
plaintext right after the handshake. -/
theorem C8_dial_only_tls (r0 : TiDevice.PairRecord)
    (sid name : String) (p : Nat) :
    let st : TiDevice.DevState :=
      { pairRecord := some r0, muxStore := some r0 }
    let r : TiDevice.StartServiceReply :=
      { error := none, service := some name, port := p,
        enableServiceSSL := true }
    let out :=
      TiDevice.unsafe_start_service (TiDevice.happyWorld sid) st name r
    ∃ c : TiDevice.InnerConn, out.1 = .ok c ∧
      c.sslHandshakeDone = true ∧
      (c.sslActive = false ↔
        (name = "com.apple.instruments.remoteserver" ∨
         name = "com.apple.accessibility.axAuditDaemon.remoteserver" ∨
         name = "com.apple.testmanagerd.lockdown" ∨
         name = "com.apple.debugserver")) := by
  refine ⟨{ port := p, sslHandshakeDone := true,
            sslActive := !(TiDevice.dialOnlyServices.contains name),
            name := name }, ?_, rfl, ?_⟩
  · simp [TiDevice.unsafe_start_service, TiDevice.create_session,
      TiDevice.pair_record_get, TiDevice.finish_session,
      TiDevice.happyWorld, TiDevice.create_inner_connection]
  · rw [Bool.not_eq_false', List.elem_iff]
    simp [TiDevice.dialOnlyServices]

/-- **C5.** The iOS ≥ 16 developer-mode gate opens
`com.apple.amfi.lockdown` and sends a 4-byte big-endian length prefix
followed by the plist body for `action`; the reply's first four bytes
are read big-endian, and a `0xD9` answer to `action = 0` raises the
"enable Developer Mode in Settings" error while a `0xE6` answer to
`action = 1` raises the "device is rebooting to show the enable dialog"
error. -/
theorem C5_amfi_developer_mode_gate (dumps : Nat → List Nat)
    (rest1 rest0 : List Nat) :
    TiDevice.AmfiLockdown = "com.apple.amfi.lockdown" ∧
    TiDevice.enable_ios16_developer_mode dumps false true
        (0 :: 0 :: 0 :: 0xe6 :: rest1) (0 :: 0 :: 0 :: 0xd9 :: rest0) =
      (.error (.serviceError
        "Device is rebooting in order to enable \"Developer Mode\""),
       [{ serviceName := "com.apple.amfi.lockdown"
          sentBytes := TiDevice.pack_be32 (dumps 1).length ++ dumps 1
          respCode := .ok 0xe6 }]) ∧
    TiDevice.enable_ios16_developer_mode dumps false false
        (0 :: 0 :: 0 :: 0xe6 :: rest1) (0 :: 0 :: 0 :: 0xd9 :: rest0) =
      (.error (.serviceError
        "Developer Mode is not opened, to enable Developer Mode goto Settings -> Privacy & Security -> Developer Mode"),
       [{ serviceName := "com.apple.amfi.lockdown"
          sentBytes := TiDevice.pack_be32 (dumps 0).length ++ dumps 0
          respCode := .ok 0xd9 }]) := by
  exact ⟨rfl, rfl, rfl⟩

/-- **C6.** One `xcuitest` run generates a single session UUID: the
configuration carries it as `sessionIdentifier`, and before launching
the runner every `*.xctestconfiguration` file in the container's `/tmp`
is removed (exactly the files with that suffix) and then the archived
configuration is written — the only write — to
`/tmp/<TargetName>-<UPPER(UUID)>.xctestconfiguration`, with `TargetName`
the executable name minus its `-Runner` suffix. -/
theorem C6_single_uuid_and_config_placement (freshUUID bundle_id : String)
    (app : TiDevice.AppInfo) (tb : Option String)
    (env : List (String × String)) (args tests : List String)
    (tmpFiles : List String) (pid : Nat)
    (h : TiDevice.str_endswith app.cfBundleExecutable "-Runner" = true) :
    let path := "/tmp/" ++ app.cfBundleExecutable.dropRight 7 ++ "-"
      ++ TiDevice.str_toUpper freshUUID ++ ".xctestconfiguration"
    let out := TiDevice.xcuitest_prepare freshUUID app bundle_id tb env
      args tests tmpFiles (some pid)
    (∃ cfg, out.1 = .ok cfg ∧ cfg.sessionIdentifier = freshUUID) ∧
    (∃ removes rest,
      out.2.2 = removes ++ TiDevice.LOp.pushContent path :: rest ∧
      (∀ o ∈ removes, ∃ f ∈ tmpFiles,
        TiDevice.str_endswith f ".xctestconfiguration" = true ∧
        o = TiDevice.LOp.removeFile ("/tmp/" ++ f)) ∧
      (∀ f ∈ tmpFiles, TiDevice.str_endswith f ".xctestconfiguration" = true →
        TiDevice.LOp.removeFile ("/tmp/" ++ f) ∈ removes)) ∧
    (∀ p, TiDevice.LOp.pushContent p ∈ out.2.2 → p = path) := by
  refine ⟨⟨{ testBundleURL := ("file://" ++ app.path ++ "/PlugIns/" ++
                 app.cfBundleExecutable.dropRight 7 ++ ".xctest"),
             sessionIdentifier := freshUUID,
             targetApplicationBundleID := tb,
             targetApplicationArguments := args,
             targetApplicationEnvironment := env,
             testsToRun := tests,
             testsMustRunOnMainThread := true,
             reportResultsToIDE := true,
             reportActivities := true,
             automationFrameworkPath :=
               "/Developer/Library/PrivateFrameworks/XCTAutomationSupport.framework" },
      ?_, rfl⟩, ?_, ?_⟩
  · simp [TiDevice.xcuitest_prepare, TiDevice.gen_xctest_configuration, h]
  · refine ⟨(tmpFiles.filter
        (fun f => TiDevice.str_endswith f ".xctestconfiguration")).map
      (fun f => TiDevice.LOp.removeFile ("/tmp/" ++ f)),
      [TiDevice.LOp.callProcessIdentifier bundle_id,
       TiDevice.LOp.launchProcess bundle_id,
       TiDevice.LOp.startObservingPid pid], ?_, ?_, ?_⟩
    · simp [TiDevice.xcuitest_prepare, TiDevice.launch_wda_app, h]
    · intro o ho
      simp only [List.mem_map, List.mem_filter] at ho
      obtain ⟨f, ⟨hf, hsuf⟩, rfl⟩ := ho
      exact ⟨f, hf, hsuf, rfl⟩
    · intro f hf hsuf
      simp only [List.mem_map, List.mem_filter]
      exact ⟨f, ⟨hf, hsuf⟩, rfl⟩
  · intro p hp
    simp [TiDevice.xcuitest_prepare, TiDevice.launch_wda_app, h,
      List.mem_append, List.mem_map] at hp
    exact hp

/-- Witness for C6: a runner named `WebDriverAgentRunner-Runner` with one
stale configuration file in the container's `/tmp`. -/
theorem C6_single_uuid_and_config_placement_witness :
    TiDevice.str_endswith "WebDriverAgentRunner-Runner" "-Runner" = true ∧
    (let app : TiDevice.AppInfo := ⟨"WebDriverAgentRunner-Runner", "/A", "/C"⟩
     let path := "/tmp/" ++ app.cfBundleExecutable.dropRight 7 ++ "-"
       ++ TiDevice.str_toUpper "ab-12" ++ ".xctestconfiguration"
     let out := TiDevice.xcuitest_prepare "ab-12" app "com.b" none [] [] []
       ["old.xctestconfiguration", "keep.txt"] (some 42)
     (∃ cfg, out.1 = .ok cfg ∧ cfg.sessionIdentifier = "ab-12") ∧
     (∃ removes rest,
       out.2.2 = removes ++ TiDevice.LOp.pushContent path :: rest ∧
       (∀ o ∈ removes, ∃ f ∈ ["old.xctestconfiguration", "keep.txt"],
         TiDevice.str_endswith f ".xctestconfiguration" = true ∧
         o = TiDevice.LOp.removeFile ("/tmp/" ++ f)) ∧
       (∀ f ∈ ["old.xctestconfiguration", "keep.txt"],
         TiDevice.str_endswith f ".xctestconfiguration" = true →
         TiDevice.LOp.removeFile ("/tmp/" ++ f) ∈ removes)) ∧
     (∀ p, TiDevice.LOp.pushContent p ∈ out.2.2 → p = path)) :=
  ⟨by decide,
   C6_single_uuid_and_config_placement "ab-12" "com.b"
     ⟨"WebDriverAgentRunner-Runner", "/A", "/C"⟩ none [] [] []
     ["old.xctestconfiguration", "keep.txt"] 42 (by decide)⟩

/-- **C10.** A runner app whose `CFBundleExecutable` does not end in
`-Runner` fails the assertion in both `_gen_xctest_configuration` and
`_launch_wda_app`; the launch aborts with an empty action trace, so no
file is written to the device and no process is launched. -/
theorem C10_runner_suffix_asserted (app : TiDevice.AppInfo)
    (freshUUID bundle_id : String) (tb : Option String)
    (env : List (String × String)) (args tests tmpFiles : List String)
    (pidReply : Option Nat)
    (h : TiDevice.str_endswith app.cfBundleExecutable "-Runner" = false) :
    TiDevice.gen_xctest_configuration app freshUUID tb env args tests =
      .error .assertionError ∧
    TiDevice.launch_wda_app app bundle_id freshUUID tmpFiles pidReply =
      (.error .assertionError, []) := by
  constructor <;>
    simp [TiDevice.gen_xctest_configuration, TiDevice.launch_wda_app, h]

/-- Witness for C10: the executable name `WebDriverAgent` lacks the
`-Runner` suffix. -/
theorem C10_runner_suffix_asserted_witness :
    TiDevice.str_endswith "WebDriverAgent" "-Runner" = false ∧
    (TiDevice.gen_xctest_configuration ⟨"WebDriverAgent", "/A", "/C"⟩ "u"
        none [] [] [] = .error .assertionError ∧
     TiDevice.launch_wda_app ⟨"WebDriverAgent", "/A", "/C"⟩ "com.b" "u"
        ["x.xctestconfiguration"] (some 7) = (.error .assertionError, [])) :=
  ⟨by decide,
   C10_runner_suffix_asserted ⟨"WebDriverAgent", "/A", "/C"⟩ "u" "com.b"
     none [] [] [] ["x.xctestconfiguration"] (some 7) (by decide)⟩

/-- `_start_executing` never touches the quit event. -/
theorem start_executing_quitEvent (s : TiDevice.XState) :
    (TiDevice.start_executing s).quitEvent = s.quitEvent := by
  unfold TiDevice.start_executing
  split <;> rfl

/-- One dispatched event sets the quit event exactly when it is a
`FINISHED` event of x1 or x2 (or it was set already). -/
theorem xstep_quitEvent (s : TiDevice.XState) (e : TiDevice.XEvent) :
    (TiDevice.xstep s e).quitEvent = true ↔
      (s.quitEvent = true ∨ e = TiDevice.XEvent.finishedX1 ∨
        e = TiDevice.XEvent.finishedX2) := by
  rcases e with _ | _ | _ | msg | r | ⟨chan, mid⟩ <;>
    simp [TiDevice.xstep, start_executing_quitEvent]
  · split <;> simp [start_executing_quitEvent]
  · rcases r with _ | r <;> simp

/-- Over a run, the quit event ends set exactly when some `FINISHED`
event of x1 or x2 occurred (or it started set). -/
theorem xrun_quit_aux (es : List TiDevice.XEvent) (s0 : TiDevice.XState) :
    (es.foldl TiDevice.xstep s0).quitEvent = true ↔
      (s0.quitEvent = true ∨ TiDevice.XEvent.finishedX1 ∈ es ∨
        TiDevice.XEvent.finishedX2 ∈ es) := by
  induction es generalizing s0 with
  | nil => simp
  | cons e es ih =>
    rw [List.foldl_cons, ih, xstep_quitEvent]
    constructor
    · rintro ((h | rfl | rfl) | h | h)
      · exact Or.inl h
      · simp
      · simp
      · simp [h]
      · simp [h]
    · rintro (h | h | h)
      · exact Or.inl (Or.inl h)
      · rcases List.mem_cons.mp h with rfl | h
        · exact Or.inl (Or.inr (Or.inl rfl))
        · exact Or.inr (Or.inl h)
      · rcases List.mem_cons.mp h with rfl | h
        · exact Or.inl (Or.inr (Or.inr rfl))
        · exact Or.inr (Or.inr h)

/-- The once-flag invariant: a cleared `_start_flag` means no test-plan
start was sent yet, and at most one is ever sent; one event dispatch
preserves it. -/
theorem xstep_sends_invariant (s : TiDevice.XState) (e : TiDevice.XEvent)
    (h0 : s.startFlag = false → s.startPlanSends = 0)
    (h1 : s.startPlanSends ≤ 1) :
    ((TiDevice.xstep s e).startFlag = false →
      (TiDevice.xstep s e).startPlanSends = 0) ∧
    (TiDevice.xstep s e).startPlanSends ≤ 1 := by
  have hstart : ((TiDevice.start_executing s).startFlag = false →
      (TiDevice.start_executing s).startPlanSends = 0) ∧
      (TiDevice.start_executing s).startPlanSends ≤ 1 := by
    unfold TiDevice.start_executing
    split
    · exact ⟨h0, h1⟩
    · next hf =>
      have : s.startPlanSends = 0 := h0 (by simpa using hf)
      exact ⟨fun hc => by simp at hc, by simp [this]⟩
  rcases e with _ | _ | _ | msg | r | ⟨chan, mid⟩ <;>
    simp [TiDevice.xstep]
  · exact ⟨h0, h1⟩
  · exact ⟨h0, h1⟩
  · exact hstart
  · split
    · exact hstart
    · exact ⟨h0, h1⟩
  · rcases r with _ | r <;> simp <;> exact ⟨h0, h1⟩
  · exact ⟨h0, h1⟩

/-- The once-flag invariant holds at the end of any run. -/
theorem xrun_sends_aux (es : List TiDevice.XEvent) (s0 : TiDevice.XState)
    (h0 : s0.startFlag = false → s0.startPlanSends = 0)
    (h1 : s0.startPlanSends ≤ 1) :
    (es.foldl TiDevice.xstep s0).startPlanSends ≤ 1 := by
  induction es generalizing s0 with
  | nil => exact h1
  | cons e es ih =>
    rw [List.foldl_cons]
    obtain ⟨g0, g1⟩ := xstep_sends_invariant s0 e h0 h1
    exact ih _ g0 g1

/-- **C9.** Across any sequence of incoming events — in particular any
number of `_XCT_testBundleReadyWithProtocolVersion:minimumVersion:`
notifications and of `_XCT_logDebugMessage:` messages containing
"Received test runner ready reply" — the
`_IDE_startExecutingTestPlanWithProtocolVersion:` message is sent at
most once, and once `_start_flag` is set an invocation of
`_start_executing` returns with the state unchanged (nothing sent). -/
theorem C9_start_plan_sent_at_most_once (es : List TiDevice.XEvent) :
    (TiDevice.xrun es).startPlanSends ≤ 1 ∧
    (∀ s : TiDevice.XState, s.startFlag = true →
      TiDevice.start_executing s = s) := by
  constructor
  · exact xrun_sends_aux es TiDevice.initXState (fun _ => rfl)
      (by simp [TiDevice.initXState])
  · intro s h
    simp [TiDevice.start_executing, h]

/-- Witness for C9: both ready callbacks firing twice still yield a
single send, and a set flag makes `_start_executing` a no-op. -/
theorem C9_start_plan_sent_at_most_once_witness :
    (TiDevice.xrun [TiDevice.XEvent.bundleReady,
      TiDevice.XEvent.logDebugMessage "xx Received test runner ready reply",
      TiDevice.XEvent.bundleReady]).startPlanSends ≤ 1 ∧
    TiDevice.start_executing
        { quitEvent := false, startFlag := true, startPlanSends := 1,
          configReplies := 0, test_results := [] } =
      { quitEvent := false, startFlag := true, startPlanSends := 1,
        configReplies := 0, test_results := [] } :=
  ⟨(C9_start_plan_sent_at_most_once _).1,
   (C9_start_plan_sent_at_most_once []).2 _ rfl⟩

/-- **C2.** `xcuitest` blocks (`none`) until a `FINISHED` event from
either testmanagerd connection has set the quit event; once unblocked it
raises the test-failure error carrying the recorded results when some
recorded `XCTestResult` has `failure_count > 0`, and returns normally
when every recorded result has `failure_count = 0`. -/
theorem C2_xcuitest_blocks_then_reports (es : List TiDevice.XEvent) :
    (TiDevice.xcuitest_wait_and_report es = none ↔
      ¬ (TiDevice.XEvent.finishedX1 ∈ es ∨
         TiDevice.XEvent.finishedX2 ∈ es)) ∧
    ((TiDevice.XEvent.finishedX1 ∈ es ∨ TiDevice.XEvent.finishedX2 ∈ es) →
      ((∃ r ∈ (TiDevice.xrun es).test_results, r.failure_count > 0) →
        TiDevice.xcuitest_wait_and_report es =
          some (.error (TiDevice.xrun es).test_results)) ∧
      ((∀ r ∈ (TiDevice.xrun es).test_results, r.failure_count = 0) →
        TiDevice.xcuitest_wait_and_report es = some (.ok ()))) := by
  have hq : (TiDevice.xrun es).quitEvent = true ↔
      (TiDevice.XEvent.finishedX1 ∈ es ∨ TiDevice.XEvent.finishedX2 ∈ es) := by
    have h := xrun_quit_aux es TiDevice.initXState
    rw [show TiDevice.initXState.quitEvent = false from rfl] at h
    simpa [TiDevice.xrun] using h
  constructor
  · rw [← hq]
    unfold TiDevice.xcuitest_wait_and_report
    cases hquit : (TiDevice.xrun es).quitEvent <;> simp [hquit]
  · intro hfin
    have hquit : (TiDevice.xrun es).quitEvent = true := hq.mpr hfin
    constructor
    · rintro ⟨r, hr, hpos⟩
      have hany : (TiDevice.xrun es).test_results.any
          (fun r => r.failure_count > 0) = true :=
        List.any_eq_true.mpr ⟨r, hr, by simpa using hpos⟩
      unfold TiDevice.xcuitest_wait_and_report
      simp [hquit, hany]
    · intro hall
      have hany : (TiDevice.xrun es).test_results.any
          (fun r => r.failure_count > 0) = false := by
        rw [List.any_eq_false]
        intro r hr
        simp [hall r hr]
      unfold TiDevice.xcuitest_wait_and_report
      simp [hquit, hany]

/-- Witness for C2: a recorded result with `failure_count = 2` followed
by x1's `FINISHED` yields the failure error carrying that result; a
clean run with `failure_count = 0` returns normally. -/
theorem C2_xcuitest_blocks_then_reports_witness :
    TiDevice.xcuitest_wait_and_report
        [TiDevice.XEvent.suiteFinished
            (some ⟨"WebDriverAgentRunner", "t0", 1, 2, 0, 3, 4⟩),
         TiDevice.XEvent.finishedX1] =
      some (.error [⟨"WebDriverAgentRunner", "t0", 1, 2, 0, 3, 4⟩]) ∧
    TiDevice.xcuitest_wait_and_report
        [TiDevice.XEvent.suiteFinished
            (some ⟨"WebDriverAgentRunner", "t0", 1, 0, 0, 3, 4⟩),
         TiDevice.XEvent.finishedX2] =
      some (.ok ()) :=
  ⟨((C2_xcuitest_blocks_then_reports _).2 (Or.inl (by simp))).1
      ⟨⟨"WebDriverAgentRunner", "t0", 1, 2, 0, 3, 4⟩,
        by simp [TiDevice.xrun, TiDevice.xstep, TiDevice.initXState],
        by norm_num⟩,
   ((C2_xcuitest_blocks_then_reports _).2 (Or.inr (by simp))).2
      (by simp [TiDevice.xrun, TiDevice.xstep, TiDevice.initXState])⟩
